import Mathlib

/-!
Shallow embedding of the `repellet` REPL execution engine (src/src/lib.rs).

The engine is generic over several external collaborators, which appear here
as type parameters and function parameters:

* `Ed`  — the state of the reedline editor (`Reedline`), abstract;
* `Cmd` — the state of a compiled clap `Command` (the grammar snapshot);
  clap's `try_get_matches_from_mut` takes `&mut Command`, so the matcher is
  modelled as a state-passing function `Cmd → List String → Cmd × Except ClapError M`;
* `M`   — clap's `ArgMatches`, abstract;
* `C`   — the user's typed command value (`C: clap::Parser`), with the decode
  step `C::from_arg_matches : M → Except ClapError C` as a parameter;
* `E`   — the handler's error type (`Err: Debug + Display`).

Handler panics are modelled as a third outcome of the handler function
(`HandlerOut.panicked`), since a Rust panic unwinds through `execute_command`
up to the `catch_unwind` in `read_with_command`, leaving the state mutations
made before the panic in place (the Mutex-wrapped values survive the unwind).
-/

/-- A caught panic payload (`Box<dyn Any + Send>`), kept opaque except for
identity: panics carry a message string. -/
structure PanicPayload where
  payload : String
deriving DecidableEq

/-- An I/O error from the line source (`std::io::Error`), abstracted to its
message. -/
structure IoError where
  msg : String
deriving DecidableEq

/-- clap's `ErrorKind`: the help/version display kinds that
`default_error_handler` matches on explicitly, plus representative parse
failure kinds. -/
inductive ErrorKind where
  | DisplayHelp
  | DisplayVersion
  | DisplayHelpOnMissingArgumentOrSubcommand
  | InvalidSubcommand
  | MissingRequiredArgument
  | UnknownArgument
  | InvalidValue
deriving DecidableEq

/-- clap's `Error<RichFormatter>`: an error kind plus the rendered message. -/
structure ClapError where
  kind : ErrorKind
  rendered : String
deriving DecidableEq

/-- `ReplError<Err>` from src/src/lib.rs lines 101-117: the closed error
taxonomy of the engine. -/
inductive ReplError (E : Type) where
  | Interrupt
  | EOF
  | Clap (err : ClapError)
  | Parse (err : ClapError)
  | Panic (payload : PanicPayload)
  | Io (err : IoError)
  | ExecutionError (err : E)
deriving DecidableEq

/-- Discriminator: is this error the `Parse` variant? -/
def ReplError.isParse {E : Type} : ReplError E → Bool
  | .Parse _ => true
  | _ => false

/-- reedline's `Signal`: the discrete outcomes of one `read_line` call. -/
inductive Signal where
  | success (buffer : String)
  | ctrlC
  | ctrlD

/-- What one `editor.read_line(..)` call produced: `Ok(Signal)` or an I/O
error. The loop treats the line source as external, so each read's outcome is
an input to the model. -/
def ReadOutcome : Type := Except IoError Signal

/-- `TermReader`: the editor and the external print channel. The prompt only
feeds rendering and is elided. The channel is modelled by which strings it
accepts: `printer s = false` means `ExternalPrinter::print` returns `Err`. -/
structure TermReader (Ed : Type) where
  editor : Ed
  printer : String → Bool

/-- `ReplContext<C, Err>` minus the handler box (the handler is an immutable
field, passed explicitly to each operation below): the canonical grammar
snapshot `command` and the reader. -/
structure ReplContext (Ed Cmd : Type) where
  command : Cmd
  reader : TermReader Ed

/-- `ExecutionContext<'a>`: the mutable borrows handed to the handler —
the editor, the print channel, and the per-dispatch grammar clone. -/
structure ExecutionContext (Ed Cmd : Type) where
  editor : Ed
  printer : String → Bool
  command : Cmd

/-- Outcome of one handler invocation: `Ok(())`, `Err(e)`, or a panic that
unwinds out of the handler. -/
inductive HandlerOut (E : Type) where
  | ok
  | error (e : E)
  | panicked (p : PanicPayload)
deriving DecidableEq

/-- `ReplHandler::on_command` — user code: may mutate the execution context,
return a typed result, or panic. -/
def Handler (Ed Cmd C E : Type) : Type :=
  ExecutionContext Ed Cmd → C → ExecutionContext Ed Cmd × HandlerOut E

/-- `ExecutionContext::print`: `self.printer.print(format!("{}", display)).unwrap()`.
Returns `none` when the channel accepts the string, and `some payload` — the
panic raised by `unwrap` — when the channel reports failure. -/
def ExecutionContext.print {Ed Cmd : Type} (ctx : ExecutionContext Ed Cmd)
    (s : String) : Option PanicPayload :=
  if ctx.printer s then none
  else some ⟨"called Result::unwrap on an Err value"⟩

/-- Accumulator-passing splitter over the character list: collects the
current word in `acc` (reversed) and emits it at each whitespace boundary. -/
def splitWhitespaceAux : List Char → List Char → List String
  | [], acc => if acc.isEmpty then [] else [String.mk acc.reverse]
  | c :: cs, acc =>
    if c.isWhitespace then
      if acc.isEmpty then splitWhitespaceAux cs []
      else String.mk acc.reverse :: splitWhitespaceAux cs []
    else splitWhitespaceAux cs (c :: acc)

/-- Rust's `str::split_whitespace`: split on whitespace, dropping empty
substrings. -/
def splitWhitespace (s : String) : List String :=
  splitWhitespaceAux s.toList []

/-- Result of `execute_command` as seen before the panic boundary: the Rust
return value `Result<(), ReplError>` plus the possibility that a handler
panic is unwinding through the call. -/
inductive DispatchOut (E : Type) where
  | ok
  | error (e : ReplError E)
  | panicked (p : PanicPayload)
deriving DecidableEq

/-- The external grammar engine, as the dispatcher calls it:
`try_get_matches_from_mut` (state-passing on the `&mut Command`) and
`C::from_arg_matches`. -/
structure GrammarEngine (Cmd M C : Type) where
  tryGetMatches : Cmd → List String → Cmd × Except ClapError M
  fromArgMatches : M → Except ClapError C

/-- `ReplContext::execute_command` (src/src/lib.rs lines 222-243):
empty line → trivial success; otherwise match the whitespace-split tokens
against the per-dispatch snapshot `command`, decode, and on success invoke
the handler inside a fresh `ExecutionContext`. Both match failure and decode
failure return `ReplError::Parse`; a handler error is wrapped in
`ReplError::ExecutionError`. Returns the updated context (editor may have
been mutated through the `ExecutionContext`), the updated snapshot clone, and
the dispatch outcome. -/
def executeCommand {Ed Cmd M C E : Type} (eng : GrammarEngine Cmd M C)
    (handler : Handler Ed Cmd C E) (ctx : ReplContext Ed Cmd) (command : Cmd)
    (line : String) : ReplContext Ed Cmd × Cmd × DispatchOut E :=
  if line.isEmpty then (ctx, command, .ok)
  else
    match eng.tryGetMatches command (splitWhitespace line) with
    | (command, .ok cliRaw) =>
      match eng.fromArgMatches cliRaw with
      | .ok cli =>
        let context : ExecutionContext Ed Cmd :=
          { editor := ctx.reader.editor
            printer := ctx.reader.printer
            command := command }
        let hres := handler context cli
        ({ ctx with reader := { ctx.reader with editor := hres.1.editor } },
          hres.1.command,
          match hres.2 with
          | .ok => .ok
          | .error e => .error (.ExecutionError e)
          | .panicked p => .panicked p)
      | .error err => (ctx, command, .error (.Parse err))
    | (command, .error err) => (ctx, command, .error (.Parse err))

/-- `ReplContext::read_with_command` (src/src/lib.rs lines 200-220): read one
signal; on `Success(buffer)` run `execute_command` inside `catch_unwind`,
converting an unwinding panic into `ReplError::Panic(payload)`; `CtrlC` →
`Interrupt`, `CtrlD` → `EOF`, read error → `Io`. -/
def readWithCommand {Ed Cmd M C E : Type} (eng : GrammarEngine Cmd M C)
    (handler : Handler Ed Cmd C E) (ctx : ReplContext Ed Cmd) (command : Cmd)
    (sig : ReadOutcome) : ReplContext Ed Cmd × Cmd × Except (ReplError E) Unit :=
  match sig with
  | .ok (.success buffer) =>
    let r := executeCommand eng handler ctx command buffer
    (r.1, r.2.1,
      match r.2.2 with
      | .ok => .ok ()
      | .error e => .error e
      | .panicked p => .error (.Panic p))
  | .ok .ctrlC => (ctx, command, .error .Interrupt)
  | .ok .ctrlD => (ctx, command, .error .EOF)
  | .error err => (ctx, command, .error (.Io err))

/-- `ReplContext::read` (src/src/lib.rs lines 196-198): one read/dispatch on
a fresh clone of the canonical snapshot. -/
def ReplContext.read {Ed Cmd M C E : Type} (eng : GrammarEngine Cmd M C)
    (handler : Handler Ed Cmd C E) (ctx : ReplContext Ed Cmd)
    (sig : ReadOutcome) : ReplContext Ed Cmd × Cmd × Except (ReplError E) Unit :=
  readWithCommand eng handler ctx ctx.command sig

/-- The error policy: `Fn(ReplError<Err>) -> Result<(), ReplError<Err>>`. -/
def ErrorHandler (E : Type) : Type := ReplError E → Except (ReplError E) Unit

/-- `default_error_handler` (src/src/lib.rs lines 133-177): terminate
(returning the error unchanged) on `Interrupt`, `EOF`, `Panic`, `Io`; log and
continue on `Clap` (with a dedicated sub-match on the help/version display
kinds), `Parse`, and `ExecutionError`. Logging is an external side effect and
is elided. -/
def defaultErrorHandler {E : Type} : ErrorHandler E := fun error =>
  match error with
  | .Interrupt | .EOF => .error error
  | .Clap err =>
    match err.kind with
    | .DisplayHelp | .DisplayVersion | .DisplayHelpOnMissingArgumentOrSubcommand =>
      .ok ()
    | _ => .ok ()
  | .Parse _ => .ok ()
  | .Panic _ => .error error
  | .Io _ => .error error
  | .ExecutionError _ => .ok ()

/-- The body of `read_loop` after the initial `self.command.clone()`:
repeatedly read (consuming one `ReadOutcome` per iteration), dispatch on the
single shared clone `command`, and route errors through `handleError`;
`Err` from the policy returns from the loop. `fuel` bounds the number of
iterations modelled; `none` means the loop was still running (or blocked on
an exhausted input stream) when fuel ran out — the Rust loop has no other
exit. The final context and clone state are returned to make the loop's
state evolution observable. -/
def readLoopAux {Ed Cmd M C E : Type} (eng : GrammarEngine Cmd M C)
    (handler : Handler Ed Cmd C E) (handleError : ErrorHandler E) :
    Nat → ReplContext Ed Cmd → Cmd → List ReadOutcome →
    ReplContext Ed Cmd × Cmd × Option (Except (ReplError E) Unit)
  | 0, ctx, command, _ => (ctx, command, none)
  | _ + 1, ctx, command, [] => (ctx, command, none)
  | fuel + 1, ctx, command, sig :: sigs =>
    let r := readWithCommand eng handler ctx command sig
    match r.2.2 with
    | .ok _ => readLoopAux eng handler handleError fuel r.1 r.2.1 sigs
    | .error err =>
      match handleError err with
      | .ok _ => readLoopAux eng handler handleError fuel r.1 r.2.1 sigs
      | .error err => (r.1, r.2.1, some (.error err))

/-- `ReplContext::read_loop` (src/src/lib.rs lines 180-195): clone the
canonical snapshot once (`let command = &mut self.command.clone()` precedes
the `loop`), then run the loop body on that single clone. -/
def readLoop {Ed Cmd M C E : Type} (eng : GrammarEngine Cmd M C)
    (handler : Handler Ed Cmd C E) (handleError : ErrorHandler E)
    (fuel : Nat) (ctx : ReplContext Ed Cmd) (sigs : List ReadOutcome) :
    ReplContext Ed Cmd × Cmd × Option (Except (ReplError E) Unit) :=
  readLoopAux eng handler handleError fuel ctx ctx.command sigs

/-- Modelled from the spec: the read loop as §3/§4.5 of the spec describe
it — "each loop iteration operates on a private clone" of the canonical
template, so every iteration re-clones `ctx.command` and discards the
clone afterwards. Used only to compare the spec's words against `readLoop`
above. -/
def readLoopFreshClone {Ed Cmd M C E : Type} (eng : GrammarEngine Cmd M C)
    (handler : Handler Ed Cmd C E) (handleError : ErrorHandler E) :
    Nat → ReplContext Ed Cmd → List ReadOutcome →
    ReplContext Ed Cmd × Option (Except (ReplError E) Unit)
  | 0, ctx, _ => (ctx, none)
  | _ + 1, ctx, [] => (ctx, none)
  | fuel + 1, ctx, sig :: sigs =>
    let r := readWithCommand eng handler ctx ctx.command sig
    match r.2.2 with
    | .ok _ => readLoopFreshClone eng handler handleError fuel r.1 sigs
    | .error err =>
      match handleError err with
      | .ok _ => readLoopFreshClone eng handler handleError fuel r.1 sigs
      | .error err => (r.1, some (.error err))

/-! ### Concrete instances used by witnesses and counterexamples

All use `Ed := Unit`, `Cmd := Nat` (an observable matcher state), `M := Unit`,
`C := Unit`, `E := String`. -/

/-- Grammar engine whose matcher records in its state how often it has run
and only matches on the first attempt — a legal behavior of the mutable
matcher interface (`try_get_matches_from_mut` takes `&mut Command`),
exercising matcher state carried across parses. -/
def counterEngine : GrammarEngine Nat Unit Unit where
  tryGetMatches := fun cmd _ =>
    (cmd + 1,
      if cmd = 0 then .ok ()
      else .error ⟨.InvalidSubcommand, "unrecognized subcommand"⟩)
  fromArgMatches := fun _ => .ok ()

/-- Engine mirroring a clap multicall grammar on an empty token list: with
no first token there is no subcommand to select, so matching fails; any
nonempty token list matches and decodes. -/
def emptyFailEngine : GrammarEngine Nat Unit Unit where
  tryGetMatches := fun cmd toks =>
    (cmd,
      if toks.isEmpty then
        .error ⟨.DisplayHelpOnMissingArgumentOrSubcommand, "requires a subcommand"⟩
      else .ok ())
  fromArgMatches := fun _ => .ok ()

/-- Engine that always matches and decodes. -/
def okEngine : GrammarEngine Nat Unit Unit where
  tryGetMatches := fun cmd _ => (cmd, .ok ())
  fromArgMatches := fun _ => .ok ()

/-- Engine whose matcher always fails. -/
def matchFailEngine : GrammarEngine Nat Unit Unit where
  tryGetMatches := fun cmd _ => (cmd, .error ⟨.UnknownArgument, "unexpected argument"⟩)
  fromArgMatches := fun _ => .ok ()

/-- Engine that matches but whose decode step always fails. -/
def decodeFailEngine : GrammarEngine Nat Unit Unit where
  tryGetMatches := fun cmd _ => (cmd, .ok ())
  fromArgMatches := fun _ => .error ⟨.InvalidValue, "invalid value"⟩

/-- Engine producing a help display outcome for every line. -/
def helpEngine : GrammarEngine Nat Unit Unit where
  tryGetMatches := fun cmd _ => (cmd, .error ⟨.DisplayHelp, "help text"⟩)
  fromArgMatches := fun _ => .ok ()

/-- Handler that succeeds without touching its context. -/
def okHandler : Handler Unit Nat Unit String := fun ctx _ => (ctx, .ok)

/-- Handler that panics (the `SimpleCli::Panic` arm of examples/simple.rs). -/
def panicHandler : Handler Unit Nat Unit String := fun ctx _ =>
  (ctx, .panicked ⟨"Panic Test"⟩)

/-- A context with snapshot state 0 and a channel accepting every string. -/
def baseCtx : ReplContext Unit Nat :=
  { command := 0, reader := { editor := (), printer := fun _ => true } }

/-- A context whose print channel rejects every string. -/
def deadChannelCtx : ReplContext Unit Nat :=
  { command := 0, reader := { editor := (), printer := fun _ => false } }

/-- An error policy that terminates on every classified error — a legal
instance of the `ErrorHandler` interface. -/
def terminateAllPolicy : ErrorHandler String := fun e => .error e

/-- A handler modelling user code whose first action is `ctx.print(s)`: when
the unwrap inside `print` panics, the panic unwinds out of the handler;
otherwise the handler returns `Ok(())`. -/
def printingHandler {Ed Cmd C E : Type} (s : String) : Handler Ed Cmd C E :=
  fun ectx _ =>
    match ectx.print s with
    | some p => (ectx, .panicked p)
    | none => (ectx, .ok)

/-! ### Helper lemmas about the dispatch pipeline -/

/-- On a non-empty line whose grammar match fails, `execute_command` leaves
the context untouched and classifies the failure as `Parse`. -/
theorem executeCommand_match_fail {Ed Cmd M C E : Type} (eng : GrammarEngine Cmd M C)
    (handler : Handler Ed Cmd C E) (ctx : ReplContext Ed Cmd) (command : Cmd)
    (line : String) (cmd' : Cmd) (err : ClapError)
    (h : line.isEmpty = false)
    (hm : eng.tryGetMatches command (splitWhitespace line) = (cmd', .error err)) :
    executeCommand eng handler ctx command line = (ctx, cmd', .error (.Parse err)) := by
  simp [executeCommand, h, hm]

/-- On a non-empty line that matches but fails to decode, `execute_command`
leaves the context untouched and classifies the failure as `Parse`. -/
theorem executeCommand_decode_fail {Ed Cmd M C E : Type} (eng : GrammarEngine Cmd M C)
    (handler : Handler Ed Cmd C E) (ctx : ReplContext Ed Cmd) (command : Cmd)
    (line : String) (cmd' : Cmd) (m : M) (err : ClapError)
    (h : line.isEmpty = false)
    (hm : eng.tryGetMatches command (splitWhitespace line) = (cmd', .ok m))
    (hd : eng.fromArgMatches m = .error err) :
    executeCommand eng handler ctx command line = (ctx, cmd', .error (.Parse err)) := by
  simp [executeCommand, h, hm, hd]

/-- `execute_command` never writes the canonical snapshot field of the
context it was called on. -/
theorem executeCommand_fst_command {Ed Cmd M C E : Type} (eng : GrammarEngine Cmd M C)
    (handler : Handler Ed Cmd C E) (ctx : ReplContext Ed Cmd) (command : Cmd)
    (line : String) :
    (executeCommand eng handler ctx command line).1.command = ctx.command := by
  unfold executeCommand
  split
  · rfl
  · split
    · split
      · rfl
      · rfl
    · rfl

/-- `execute_command` never produces the `Clap` variant: its two failure
arms both build `Parse`, and a handler error builds `ExecutionError`. -/
theorem executeCommand_ne_clap {Ed Cmd M C E : Type} (eng : GrammarEngine Cmd M C)
    (handler : Handler Ed Cmd C E) (ctx : ReplContext Ed Cmd) (command : Cmd)
    (line : String) (ce : ClapError) :
    (executeCommand eng handler ctx command line).2.2 ≠ .error (.Clap ce) := by
  unfold executeCommand
  split
  · nofun
  · split
    · split
      · dsimp only
        split <;> simp
      · simp
    · simp

/-- `read_with_command` never writes the canonical snapshot field. -/
theorem readWithCommand_fst_command {Ed Cmd M C E : Type} (eng : GrammarEngine Cmd M C)
    (handler : Handler Ed Cmd C E) (ctx : ReplContext Ed Cmd) (command : Cmd)
    (sig : ReadOutcome) :
    (readWithCommand eng handler ctx command sig).1.command = ctx.command := by
  unfold readWithCommand
  split
  · exact executeCommand_fst_command eng handler ctx command _
  · rfl
  · rfl
  · rfl

/-- The loop body never writes the canonical snapshot field of the context,
over any number of iterations. -/
theorem readLoopAux_fst_command {Ed Cmd M C E : Type} (eng : GrammarEngine Cmd M C)
    (handler : Handler Ed Cmd C E) (handleError : ErrorHandler E) (fuel : Nat)
    (ctx : ReplContext Ed Cmd) (command : Cmd) (sigs : List ReadOutcome) :
    (readLoopAux eng handler handleError fuel ctx command sigs).1.command = ctx.command := by
  induction fuel generalizing ctx command sigs with
  | zero => rfl
  | succ fuel ih =>
    cases sigs with
    | nil => rfl
    | cons sig sigs =>
      unfold readLoopAux
      dsimp only
      split
      · exact (ih _ _ _).trans (readWithCommand_fst_command eng handler ctx command sig)
      · split
        · exact (ih _ _ _).trans (readWithCommand_fst_command eng handler ctx command sig)
        · exact readWithCommand_fst_command eng handler ctx command sig

/-- If the loop body returns at all, it returns through the policy's
`Terminate` arm, which wraps an error. -/
theorem readLoopAux_some_is_error {Ed Cmd M C E : Type} (eng : GrammarEngine Cmd M C)
    (handler : Handler Ed Cmd C E) (handleError : ErrorHandler E) (fuel : Nat)
    (ctx : ReplContext Ed Cmd) (command : Cmd) (sigs : List ReadOutcome)
    (r : Except (ReplError E) Unit)
    (h : (readLoopAux eng handler handleError fuel ctx command sigs).2.2 = some r) :
    ∃ e, r = .error e := by
  induction fuel generalizing ctx command sigs with
  | zero => exact absurd h (by simp [readLoopAux])
  | succ fuel ih =>
    cases sigs with
    | nil => exact absurd h (by simp [readLoopAux])
    | cons sig sigs =>
      unfold readLoopAux at h
      dsimp only at h
      split at h
      · exact ih _ _ _ h
      · split at h
        · exact ih _ _ _ h
        · rename_i err _ _ _
          simp only [Option.some.injEq] at h
          exact ⟨_, h.symm⟩

/-! ### Claims -/

/-- C1, counterexample: the claim that every `read_loop` iteration dispatches
on a fresh private clone of the canonical snapshot is false. `read_loop`
clones `self.command` once, before the `loop`; with a matcher that records
its invocation count in the snapshot state (and only matches on the first
attempt), the same line succeeds on iteration one and fails on iteration two,
and a terminate-on-everything policy then ends the loop — whereas the loop
the spec describes (`readLoopFreshClone`) dispatches both iterations on
identical fresh clones and keeps running. -/
theorem c1_counterexample_shared_clone_leak :
    (readLoop counterEngine okHandler terminateAllPolicy 2 baseCtx
        [.ok (.success "x"), .ok (.success "x")]).2.2
      = some (.error (.Parse ⟨.InvalidSubcommand, "unrecognized subcommand"⟩)) ∧
    (readLoopFreshClone counterEngine okHandler terminateAllPolicy 2 baseCtx
        [.ok (.success "x"), .ok (.success "x")]).2 = none ∧
    (readLoop counterEngine okHandler terminateAllPolicy 2 baseCtx
        [.ok (.success "x"), .ok (.success "x")]).2.2
      ≠ (readLoopFreshClone counterEngine okHandler terminateAllPolicy 2 baseCtx
        [.ok (.success "x"), .ok (.success "x")]).2 := by
  refine ⟨rfl, rfl, ?_⟩
  intro hcontra
  exact Option.noConfusion hcontra

/-- C1, amended: `read_loop` clones the canonical snapshot exactly once,
before the loop, and every iteration dispatches on that single shared clone
(matcher state may therefore carry across iterations); the canonical
template field itself is never mutated by the loop body. -/
theorem c1_read_loop_single_shared_clone {Ed Cmd M C E : Type}
    (eng : GrammarEngine Cmd M C) (handler : Handler Ed Cmd C E)
    (handleError : ErrorHandler E) (fuel : Nat) (ctx : ReplContext Ed Cmd)
    (command : Cmd) (sigs : List ReadOutcome) :
    readLoop eng handler handleError fuel ctx sigs
      = readLoopAux eng handler handleError fuel ctx ctx.command sigs ∧
    (readLoopAux eng handler handleError fuel ctx command sigs).1.command
      = ctx.command :=
  ⟨rfl, readLoopAux_fst_command eng handler handleError fuel ctx command sigs⟩

/-- C2, counterexample: a whitespace-only (but non-empty) line is not
short-circuited by `execute_command` — only `line.is_empty()` is tested — so
with a matcher that (like a clap multicall grammar) rejects an empty token
list, the line `" "` classifies as a `Parse` error instead of succeeding. -/
theorem c2_counterexample_whitespace_line :
    (executeCommand emptyFailEngine okHandler baseCtx 0 " ").2.2
      = .error (.Parse ⟨.DisplayHelpOnMissingArgumentOrSubcommand,
          "requires a subcommand"⟩) ∧
    (executeCommand emptyFailEngine okHandler baseCtx 0 " ").2.2
      ≠ (.ok : DispatchOut String) := by
  refine ⟨rfl, ?_⟩
  intro hcontra
  exact DispatchOut.noConfusion hcontra

/-- C2, amended: only a truly empty line short-circuits to `Ok` with no
handler call; a whitespace-only non-empty line is tokenized to the empty
token list and handed to the grammar matcher, and when the matcher rejects
the empty token list the dispatch classifies it as a `Parse` error (still
with no handler call — the result does not depend on the handler). -/
theorem c2_only_empty_line_short_circuits {Ed Cmd M C E : Type}
    (eng : GrammarEngine Cmd M C) (handler : Handler Ed Cmd C E)
    (ctx : ReplContext Ed Cmd) (command : Cmd) :
    (∀ line : String, line.isEmpty = true →
      executeCommand eng handler ctx command line = (ctx, command, .ok)) ∧
    (∀ (line : String) (cmd' : Cmd) (err : ClapError), line.isEmpty = false →
      splitWhitespace line = [] →
      eng.tryGetMatches command [] = (cmd', .error err) →
      executeCommand eng handler ctx command line
        = (ctx, cmd', .error (.Parse err))) := by
  constructor
  · intro line h
    simp [executeCommand, h]
  · intro line cmd' err h hsplit hget
    exact executeCommand_match_fail eng handler ctx command line cmd' err h
      (by rw [hsplit]; exact hget)

/-- C2, witness for the amended theorem: the empty line is a no-op success,
and the single-space line becomes a `Parse` error. -/
theorem c2_witness :
    executeCommand emptyFailEngine okHandler baseCtx 0 "" = (baseCtx, 0, .ok) ∧
    executeCommand emptyFailEngine okHandler baseCtx 0 " "
      = (baseCtx, 0, .error (.Parse ⟨.DisplayHelpOnMissingArgumentOrSubcommand,
          "requires a subcommand"⟩)) :=
  ⟨(c2_only_empty_line_short_circuits emptyFailEngine okHandler baseCtx 0).1 "" rfl,
   (c2_only_empty_line_short_circuits emptyFailEngine okHandler baseCtx 0).2
     " " 0 _ rfl rfl rfl⟩

/-- C3: when the handler panics during a `Success(text)` dispatch, the panic
does not escape `read_with_command`: the caught payload is returned as the
`Panic` classification, with the state mutations made before the panic kept. -/
theorem c3_panic_caught_as_panic_classification {Ed Cmd M C E : Type}
    (eng : GrammarEngine Cmd M C) (handler : Handler Ed Cmd C E)
    (ctx : ReplContext Ed Cmd) (command : Cmd) (buffer : String)
    (p : PanicPayload)
    (hp : (executeCommand eng handler ctx command buffer).2.2 = .panicked p) :
    readWithCommand eng handler ctx command (.ok (.success buffer))
      = ((executeCommand eng handler ctx command buffer).1,
         (executeCommand eng handler ctx command buffer).2.1,
         .error (.Panic p)) := by
  unfold readWithCommand
  dsimp only
  rw [hp]

/-- C3, witness: a handler that panics with payload "Panic Test" yields the
`Panic` classification from `read_with_command`. -/
theorem c3_witness :
    (executeCommand okEngine panicHandler baseCtx 0 "x").2.2
      = .panicked ⟨"Panic Test"⟩ ∧
    readWithCommand okEngine panicHandler baseCtx 0 (.ok (.success "x"))
      = (baseCtx, 0, .error (.Panic ⟨"Panic Test"⟩)) :=
  ⟨rfl,
   (c3_panic_caught_as_panic_classification okEngine panicHandler baseCtx 0 "x"
     ⟨"Panic Test"⟩ rfl).trans rfl⟩

/-- C4: `default_error_handler` maps each taxonomy variant to exactly the
default disposition: `Err` with the same error for `Interrupt`, `EOF`,
`Panic`, `Io`, and `Ok` (continue after logging) for `Clap`, `Parse`,
`ExecutionError`. -/
theorem c4_default_error_handler_dispositions {E : Type} (p : PanicPayload)
    (ioe : IoError) (ce : ClapError) (e : E) :
    defaultErrorHandler (E := E) .Interrupt = .error .Interrupt ∧
    defaultErrorHandler (E := E) .EOF = .error .EOF ∧
    defaultErrorHandler (E := E) (.Panic p) = .error (.Panic p) ∧
    defaultErrorHandler (E := E) (.Io ioe) = .error (.Io ioe) ∧
    defaultErrorHandler (E := E) (.Clap ce) = .ok () ∧
    defaultErrorHandler (E := E) (.Parse ce) = .ok () ∧
    defaultErrorHandler (E := E) (.ExecutionError e) = .ok () := by
  refine ⟨rfl, rfl, rfl, rfl, ?_, rfl, rfl⟩
  rcases ce with ⟨k, r⟩
  cases k <;> rfl

/-- C5, counterexample: a grammar match failure and a decode failure are NOT
classified as two distinct variants — both land in the single
`ReplError::Parse` constructor (the taxonomy has no separate decode variant
reachable from dispatch): the match-failure engine and the decode-failure
engine both produce `Parse`. -/
theorem c5_counterexample_decode_failure_same_variant :
    (executeCommand matchFailEngine okHandler baseCtx 0 "foo").2.2
      = .error (.Parse ⟨.UnknownArgument, "unexpected argument"⟩) ∧
    (executeCommand decodeFailEngine okHandler baseCtx 0 "foo").2.2
      = .error (.Parse ⟨.InvalidValue, "invalid value"⟩) ∧
    ReplError.isParse (E := String) (.Parse ⟨.UnknownArgument, "unexpected argument"⟩)
      = true ∧
    ReplError.isParse (E := String) (.Parse ⟨.InvalidValue, "invalid value"⟩)
      = true :=
  ⟨rfl, rfl, rfl, rfl⟩

/-- C5, amended: match failure and decode failure are both classified into
the single `Parse` variant, carrying the engine's error (kind and rendered
message); the `Clap` variant of the taxonomy is never produced by
`execute_command`. -/
theorem c5_both_failures_classified_as_parse {Ed Cmd M C E : Type}
    (eng : GrammarEngine Cmd M C) (handler : Handler Ed Cmd C E)
    (ctx : ReplContext Ed Cmd) (command : Cmd) (line : String)
    (cmd' : Cmd) (m : M) (err : ClapError) (h : line.isEmpty = false) :
    (eng.tryGetMatches command (splitWhitespace line) = (cmd', .error err) →
      executeCommand eng handler ctx command line
        = (ctx, cmd', .error (.Parse err))) ∧
    (eng.tryGetMatches command (splitWhitespace line) = (cmd', .ok m) →
      eng.fromArgMatches m = .error err →
      executeCommand eng handler ctx command line
        = (ctx, cmd', .error (.Parse err))) ∧
    (∀ ce : ClapError,
      (executeCommand eng handler ctx command line).2.2 ≠ .error (.Clap ce)) :=
  ⟨executeCommand_match_fail eng handler ctx command line cmd' err h,
   fun hm hd => executeCommand_decode_fail eng handler ctx command line cmd' m err h hm hd,
   fun ce => executeCommand_ne_clap eng handler ctx command line ce⟩

/-- C5, witness for the amended theorem at the two concrete engines. -/
theorem c5_witness :
    executeCommand matchFailEngine okHandler baseCtx 0 "foo"
      = (baseCtx, 0, .error (.Parse ⟨.UnknownArgument, "unexpected argument"⟩)) ∧
    executeCommand decodeFailEngine okHandler baseCtx 0 "foo"
      = (baseCtx, 0, .error (.Parse ⟨.InvalidValue, "invalid value"⟩)) :=
  ⟨(c5_both_failures_classified_as_parse matchFailEngine okHandler baseCtx 0 "foo"
      0 () _ rfl).1 rfl,
   (c5_both_failures_classified_as_parse decodeFailEngine okHandler baseCtx 0 "foo"
      0 () _ rfl).2.1 rfl rfl⟩

/-- C6, counterexample: a help-style grammar outcome is not recoverable
"regardless of which error policy is installed": `read_loop` trusts the
installed policy absolutely, so under a terminate-on-everything policy the
loop terminates on the help outcome instead of continuing. -/
theorem c6_counterexample_policy_can_terminate_on_help :
    (readLoop helpEngine okHandler terminateAllPolicy 1 baseCtx
        [.ok (.success "help")]).2.2
      = some (.error (.Parse ⟨.DisplayHelp, "help text"⟩)) ∧
    (readLoop helpEngine okHandler terminateAllPolicy 1 baseCtx
        [.ok (.success "help")]).2.2 ≠ none := by
  refine ⟨rfl, ?_⟩
  intro hcontra
  exact Option.noConfusion hcontra

/-- C6, amended: a help/version-style grammar outcome is classified into the
`Parse` variant carrying the display kind, and the DEFAULT policy treats it
(like every `Parse` and `Clap` error) as recoverable; whether the loop
continues under a custom policy is that policy's decision alone. -/
theorem c6_help_outcomes_parse_and_default_continues {Ed Cmd M C E : Type}
    (eng : GrammarEngine Cmd M C) (handler : Handler Ed Cmd C E)
    (ctx : ReplContext Ed Cmd) (command : Cmd) (line : String)
    (cmd' : Cmd) (err : ClapError)
    (hk : err.kind = .DisplayHelp ∨ err.kind = .DisplayVersion ∨
      err.kind = .DisplayHelpOnMissingArgumentOrSubcommand) :
    (line.isEmpty = false →
      eng.tryGetMatches command (splitWhitespace line) = (cmd', .error err) →
      executeCommand eng handler ctx command line
        = (ctx, cmd', .error (.Parse err))) ∧
    defaultErrorHandler (E := E) (.Parse err) = .ok () ∧
    defaultErrorHandler (E := E) (.Clap err) = .ok () := by
  refine ⟨fun h hm => executeCommand_match_fail eng handler ctx command line cmd' err h hm,
    rfl, ?_⟩
  rcases err with ⟨k, r⟩
  cases k <;> rfl

/-- C6, witness for the amended theorem: the help outcome of `helpEngine` is
classified as `Parse` with kind `DisplayHelp`, and the default policy
continues on it. -/
theorem c6_witness :
    executeCommand helpEngine okHandler baseCtx 0 "help"
      = (baseCtx, 0, .error (.Parse ⟨.DisplayHelp, "help text"⟩)) ∧
    defaultErrorHandler (E := String) (.Parse ⟨.DisplayHelp, "help text"⟩) = .ok () := by
  have h := c6_help_outcomes_parse_and_default_continues helpEngine okHandler
    baseCtx 0 "help" 0 ⟨.DisplayHelp, "help text"⟩ (Or.inl rfl)
  exact ⟨h.1 rfl rfl, h.2.1⟩

/-- C7: on a non-empty line whose grammar match fails, or which matches but
fails to decode, the classified result is independent of the handler (the
binder `handler` does not occur in the result — the handler is never
invoked), the failure is recovered locally as a `Parse` classification, and
no panic outcome is produced. -/
theorem c7_failed_match_or_decode_never_reaches_handler {Ed Cmd M C E : Type}
    (eng : GrammarEngine Cmd M C) (handler : Handler Ed Cmd C E)
    (ctx : ReplContext Ed Cmd) (command : Cmd) (line : String)
    (cmd' : Cmd) (m : M) (err : ClapError) (h : line.isEmpty = false) :
    (eng.tryGetMatches command (splitWhitespace line) = (cmd', .error err) →
      executeCommand eng handler ctx command line
        = (ctx, cmd', .error (.Parse err)) ∧
      ∀ p, (executeCommand eng handler ctx command line).2.2 ≠ .panicked p) ∧
    (eng.tryGetMatches command (splitWhitespace line) = (cmd', .ok m) →
      eng.fromArgMatches m = .error err →
      executeCommand eng handler ctx command line
        = (ctx, cmd', .error (.Parse err)) ∧
      ∀ p, (executeCommand eng handler ctx command line).2.2 ≠ .panicked p) := by
  constructor
  · intro hm
    have he := executeCommand_match_fail eng handler ctx command line cmd' err h hm
    refine ⟨he, fun p hcontra => ?_⟩
    rw [he] at hcontra
    exact DispatchOut.noConfusion hcontra
  · intro hm hd
    have he := executeCommand_decode_fail eng handler ctx command line cmd' m err h hm hd
    refine ⟨he, fun p hcontra => ?_⟩
    rw [he] at hcontra
    exact DispatchOut.noConfusion hcontra

/-- C7, witness: even with a handler that would panic if invoked, a failed
match and a failed decode each produce the `Parse` classification — the
handler was never reached. -/
theorem c7_witness :
    executeCommand matchFailEngine panicHandler baseCtx 0 "foo"
      = (baseCtx, 0, .error (.Parse ⟨.UnknownArgument, "unexpected argument"⟩)) ∧
    executeCommand decodeFailEngine panicHandler baseCtx 0 "foo"
      = (baseCtx, 0, .error (.Parse ⟨.InvalidValue, "invalid value"⟩)) :=
  ⟨((c7_failed_match_or_decode_never_reaches_handler matchFailEngine panicHandler
      baseCtx 0 "foo" 0 () _ rfl).1 rfl).1,
   ((c7_failed_match_or_decode_never_reaches_handler decodeFailEngine panicHandler
      baseCtx 0 "foo" 0 () _ rfl).2 rfl rfl).1⟩

/-- C8: the canonical grammar snapshot (`ReplContext.command`) is never
mutated by dispatch, by one read, or by the whole loop: every one of
`execute_command`, `read_with_command`, `read` and `read_loop` leaves the
`command` field of the context exactly as it was. -/
theorem c8_canonical_snapshot_never_mutated {Ed Cmd M C E : Type}
    (eng : GrammarEngine Cmd M C) (handler : Handler Ed Cmd C E)
    (handleError : ErrorHandler E) (fuel : Nat) (ctx : ReplContext Ed Cmd)
    (command : Cmd) (line : String) (sig : ReadOutcome)
    (sigs : List ReadOutcome) :
    (executeCommand eng handler ctx command line).1.command = ctx.command ∧
    (readWithCommand eng handler ctx command sig).1.command = ctx.command ∧
    (ReplContext.read eng handler ctx sig).1.command = ctx.command ∧
    (readLoop eng handler handleError fuel ctx sigs).1.command = ctx.command :=
  ⟨executeCommand_fst_command eng handler ctx command line,
   readWithCommand_fst_command eng handler ctx command sig,
   readWithCommand_fst_command eng handler ctx ctx.command sig,
   readLoopAux_fst_command eng handler handleError fuel ctx ctx.command sigs⟩

/-- C9: `read_loop` never returns `Ok`: whenever the loop returns at all, the
returned value is the `Err` the policy produced on its `Terminate` decision —
there is no clean-stop exit path. -/
theorem c9_read_loop_returns_only_errors {Ed Cmd M C E : Type}
    (eng : GrammarEngine Cmd M C) (handler : Handler Ed Cmd C E)
    (handleError : ErrorHandler E) (fuel : Nat) (ctx : ReplContext Ed Cmd)
    (sigs : List ReadOutcome) (r : Except (ReplError E) Unit)
    (h : (readLoop eng handler handleError fuel ctx sigs).2.2 = some r) :
    ∃ e, r = .error e :=
  readLoopAux_some_is_error eng handler handleError fuel ctx ctx.command sigs r h

/-- C9, witness: an interrupt under the default policy makes the loop return,
and the returned value is an error. -/
theorem c9_witness :
    (readLoop okEngine okHandler defaultErrorHandler 1 baseCtx [.ok .ctrlC]).2.2
      = some (.error .Interrupt) ∧
    ∃ e : ReplError String,
      (Except.error ReplError.Interrupt : Except (ReplError String) Unit)
        = .error e :=
  ⟨rfl, c9_read_loop_returns_only_errors okEngine okHandler defaultErrorHandler 1
    baseCtx [.ok .ctrlC] (.error .Interrupt) rfl⟩

/-- C10: `ExecutionContext::print` unwraps the print channel's result, so on
any input the channel rejects it panics (returns the unwrap panic payload
instead of an error value); a handler that performs such a print during a
`Success` dispatch has its panic caught at the boundary and classified as
`Panic`, never as an `Io` failure. -/
theorem c10_print_unwrap_panics_classified_as_panic {Ed Cmd M C E : Type}
    (ectx : ExecutionContext Ed Cmd) (s : String)
    (eng : GrammarEngine Cmd M C) (ctx : ReplContext Ed Cmd) (command : Cmd)
    (buffer : String) (cmd' : Cmd) (m : M) (cli : C)
    (hc : ectx.printer s = false) (hc' : ctx.reader.printer s = false)
    (hb : buffer.isEmpty = false)
    (hm : eng.tryGetMatches command (splitWhitespace buffer) = (cmd', .ok m))
    (hd : eng.fromArgMatches m = .ok cli) :
    ectx.print s = some ⟨"called Result::unwrap on an Err value"⟩ ∧
    readWithCommand eng (printingHandler (C := C) (E := E) s) ctx command
        (.ok (.success buffer))
      = (ctx, cmd', .error (.Panic ⟨"called Result::unwrap on an Err value"⟩)) ∧
    ∀ io, (readWithCommand eng (printingHandler (C := C) (E := E) s) ctx command
        (.ok (.success buffer))).2.2 ≠ .error (.Io io) := by
  have hexec : executeCommand eng (printingHandler (C := C) (E := E) s) ctx command buffer
      = (ctx, cmd', .panicked ⟨"called Result::unwrap on an Err value"⟩) := by
    simp [executeCommand, hb, hm, hd, printingHandler, ExecutionContext.print, hc']
  have hrwc : readWithCommand eng (printingHandler (C := C) (E := E) s) ctx command
      (.ok (.success buffer))
      = (ctx, cmd', .error (.Panic ⟨"called Result::unwrap on an Err value"⟩)) := by
    unfold readWithCommand
    dsimp only
    rw [hexec]
  refine ⟨by simp [ExecutionContext.print, hc], hrwc, fun io hcontra => ?_⟩
  rw [hrwc] at hcontra
  simp at hcontra

/-- C10, witness: with a channel that rejects everything, `print` panics and
the dispatch of `"x"` with a printing handler is classified as `Panic`. -/
theorem c10_witness :
    ExecutionContext.print
        (⟨(), fun _ => false, 0⟩ : ExecutionContext Unit Nat) "hi"
      = some ⟨"called Result::unwrap on an Err value"⟩ ∧
    readWithCommand okEngine (printingHandler (E := String) "hi") deadChannelCtx 0
        (.ok (.success "x"))
      = (deadChannelCtx, 0,
          .error (.Panic ⟨"called Result::unwrap on an Err value"⟩)) := by
  have h := c10_print_unwrap_panics_classified_as_panic (E := String)
    (⟨(), fun _ => false, 0⟩ : ExecutionContext Unit Nat) "hi" okEngine
    deadChannelCtx 0 "x" 0 () () rfl rfl rfl rfl rfl
  exact ⟨h.1, h.2.1⟩
